import Mathlib

/-!
Verification of the rpi_bm bare-metal firmware core: the boot / exception-level
transition sequence and the interrupt-driven dispatch loop.

The development shallowly embeds the relevant C and AArch64 assembly source:
 * `source/irq.c` (`handle_irq`, `show_invalid_entry_message`, `entry_error_message`),
 * `source/mm.S` (`memzero`),
 * `source/boot.S` (`_start`, `master`, `proc_hang`),
 * `source/entry.S` (`kernel_exception_enter` / `kernel_exception_exit`,
   `handle_invalid_entry`, the vector table),
 * `source/irq_asm.S` (`irq_init`, `irq_enable`),
 * `source/kernel.c` (`kernel_main`),
 * `source/timer.c` (`timer_init`, `timer_clear_interrupt`, `handle_timer`),
 * `source/uart_printf.c` (`uart_printf` and its helpers).

Machine integers are modelled as `Nat` (with explicit `% 2^w` / masking where the
source relies on a fixed width); C `int` values are modelled as `Int` where
signedness matters.  Hardware loops are embedded with explicit fuel: a `some`
result is a run in which the loop exited by its own condition, `none` means the
fuel bound was hit.
-/

namespace RpiBm

/-! ## Constants from `include/irq.h`

`#define TIMER_1_IRQ BIT_1(1)`, `#define TIMER_3_IRQ BIT_1(3)`,
`#define AUX_IRQ BIT_1(29)` where `BIT_1(x) = (1 << x)`. -/

def AUX_IRQ : Nat := 1 <<< 29

def TIMER_1_IRQ : Nat := 1 <<< 1

def TIMER_3_IRQ : Nat := 1 <<< 3

/-- All-ones mask of a 32-bit register (`uint32_t`). -/
def UINT32_MASK : Nat := 2 ^ 32 - 1

/-- C bitwise complement `~x` as applied to a `uint32_t` operand:
the set of 32-bit positions not set in `x`. -/
def compl32 (x : Nat) : Nat := UINT32_MASK ^^^ x

/-- The three interrupt-source bits the dispatcher recognizes
(`AUX_IRQ | TIMER_1_IRQ | TIMER_3_IRQ`, as in `enable_interrupt_controller`). -/
def RECOGNIZED_IRQS : Nat := AUX_IRQ ||| TIMER_1_IRQ ||| TIMER_3_IRQ

/-- 32-bit positions outside the recognized set. -/
def UNRECOGNIZED_MASK : Nat := compl32 RECOGNIZED_IRQS

/-! ## The interrupt dispatcher `handle_irq` (`source/irq.c`)

```
irq = IRQ_REG->IRQPending1;
while (irq) {
    if (irq & AUX_IRQ)     { irq &= ~AUX_IRQ;     while ((AUX->MU_IIR_REG & 4) == 4) { ... uart_send(uart_recv()); ... } }
    if (irq & TIMER_1_IRQ) { irq &= ~TIMER_1_IRQ; handle_timer(TIMER_1); }
    if (irq & TIMER_3_IRQ) { irq &= ~TIMER_3_IRQ; handle_timer(TIMER_3); }
}
```

The observable behaviour is a trace of collaborator invocations.  The mini-UART
receive FIFO is modelled as the finite list of bytes it will deliver; the inner
`while ((AUX->MU_IIR_REG & 4) == 4)` loop drains it.  The loop state is the
pair (remaining FIFO bytes, local copy `irq` of the pending field), passed as
two curried arguments. -/

/-- A collaborator invocation made by the dispatcher loop. -/
inductive IrqEvent
  /-- The auxiliary (mini-UART) branch ran and echoed these received bytes. -/
  | auxUart (bytes : List Nat)
  /-- `handle_timer(idx)` was invoked. -/
  | timer (idx : Nat)
deriving DecidableEq, Repr

/-- `if (irq & AUX_IRQ) { irq &= ~AUX_IRQ; <drain the UART FIFO> }`. -/
def auxStep (fifo : List Nat) (irq : Nat) : List IrqEvent × List Nat × Nat :=
  if irq &&& AUX_IRQ ≠ 0 then
    ([IrqEvent.auxUart fifo], [], irq &&& compl32 AUX_IRQ)
  else ([], fifo, irq)

/-- `if (irq & TIMER_1_IRQ) { irq &= ~TIMER_1_IRQ; handle_timer(TIMER_1); }`. -/
def timer1Step (fifo : List Nat) (irq : Nat) : List IrqEvent × List Nat × Nat :=
  if irq &&& TIMER_1_IRQ ≠ 0 then
    ([IrqEvent.timer 1], fifo, irq &&& compl32 TIMER_1_IRQ)
  else ([], fifo, irq)

/-- `if (irq & TIMER_3_IRQ) { irq &= ~TIMER_3_IRQ; handle_timer(TIMER_3); }`. -/
def timer3Step (fifo : List Nat) (irq : Nat) : List IrqEvent × List Nat × Nat :=
  if irq &&& TIMER_3_IRQ ≠ 0 then
    ([IrqEvent.timer 3], fifo, irq &&& compl32 TIMER_3_IRQ)
  else ([], fifo, irq)

/-- One pass of the body of `while (irq) { ... }` in `handle_irq`. -/
def handleIrqBody (fifo : List Nat) (irq : Nat) : List IrqEvent × List Nat × Nat :=
  let p1 := auxStep fifo irq
  let p2 := timer1Step p1.2.1 p1.2.2
  let p3 := timer3Step p2.2.1 p2.2.2
  (p1.1 ++ p2.1 ++ p3.1, p3.2)

/-- The `while (irq)` loop of `handle_irq`, with explicit fuel.
`some (events, final irq)` means the loop exited because `irq` became zero. -/
def handleIrqLoop (fuel : Nat) (fifo : List Nat) (irq : Nat) :
    Option (List IrqEvent × Nat) :=
  match fuel with
  | 0 => if irq = 0 then some ([], irq) else none
  | fuel + 1 =>
    if irq = 0 then some ([], irq)
    else
      let p := handleIrqBody fifo irq
      match handleIrqLoop fuel p.2.1 p.2.2 with
      | some (evs, irqF) => some (p.1 ++ evs, irqF)
      | none => none

/-- `handle_irq` on a pending-field snapshot `pending`, given the bytes the
mini-UART FIFO will deliver.  Returns the collaborator trace and the final
value of the local copy of the pending field. -/
def handle_irq (fuel : Nat) (fifo : List Nat) (pending : Nat) :
    Option (List IrqEvent × Nat) :=
  handleIrqLoop fuel fifo pending

/-! ### C1: recognized snapshots are drained in one pass, in order -/

/-- **C1.** For every pending-field snapshot whose set bits are a subset of
`{AUX_IRQ (bit 29), TIMER_1_IRQ (bit 1), TIMER_3_IRQ (bit 3)}` (all eight
subsets, parameterized by the three Booleans), `handle_irq` terminates, invokes
exactly the handlers for the bits present — the auxiliary (UART) branch first,
then Timer1, then Timer3, each at most once — and its local copy of the pending
field ends at zero. -/
theorem handle_irq_recognized_subsets (a t1 t3 : Bool) (fifo : List Nat) :
    handle_irq 2 fifo
      ((if a then AUX_IRQ else 0) ||| (if t1 then TIMER_1_IRQ else 0) |||
        (if t3 then TIMER_3_IRQ else 0)) =
    some ((if a then [IrqEvent.auxUart fifo] else []) ++
          (if t1 then [IrqEvent.timer 1] else []) ++
          (if t3 then [IrqEvent.timer 3] else []), 0) := by
  cases a <;> cases t1 <;> cases t3 <;>
    simp +decide [handle_irq, handleIrqLoop, handleIrqBody, auxStep, timer1Step,
      timer3Step, AUX_IRQ, TIMER_1_IRQ, TIMER_3_IRQ, compl32, UINT32_MASK]

/-! ### C2: any unrecognized pending bit hangs the loop -/

theorem land_land_unrecog (x B : Nat)
    (hB : compl32 B &&& UNRECOGNIZED_MASK = UNRECOGNIZED_MASK) :
    (x &&& compl32 B) &&& UNRECOGNIZED_MASK = x &&& UNRECOGNIZED_MASK := by
  rw [Nat.land_assoc, hB]

theorem handleIrqBody_preserves_unrecognized (fifo : List Nat) (irq : Nat) :
    (handleIrqBody fifo irq).2.2 &&& UNRECOGNIZED_MASK = irq &&& UNRECOGNIZED_MASK := by
  unfold handleIrqBody auxStep timer1Step timer3Step
  have hA : compl32 AUX_IRQ &&& UNRECOGNIZED_MASK = UNRECOGNIZED_MASK := by decide
  have h1 : compl32 TIMER_1_IRQ &&& UNRECOGNIZED_MASK = UNRECOGNIZED_MASK := by decide
  have h3 : compl32 TIMER_3_IRQ &&& UNRECOGNIZED_MASK = UNRECOGNIZED_MASK := by decide
  split <;> dsimp only <;> split <;> dsimp only <;> split <;>
    simp only [land_land_unrecog _ _ hA, land_land_unrecog _ _ h1, land_land_unrecog _ _ h3]

/-- **C2.** For every pending-field snapshot containing at least one set bit
outside the recognized set `{AUX_IRQ, TIMER_1_IRQ, TIMER_3_IRQ}`, the
`while (irq)` loop of `handle_irq` never terminates: no code path clears such a
bit from the local copy, so for every fuel bound the loop is still running. -/
theorem handle_irq_unrecognized_diverges (fifo : List Nat) (pending : Nat)
    (hbad : pending &&& UNRECOGNIZED_MASK ≠ 0) :
    ∀ fuel, handle_irq fuel fifo pending = none := by
  have key : ∀ fuel (fifo : List Nat) (irq : Nat), irq &&& UNRECOGNIZED_MASK ≠ 0 →
      handleIrqLoop fuel fifo irq = none := by
    intro fuel
    induction fuel with
    | zero =>
      intro fifo irq hs
      have hne : irq ≠ 0 := by
        intro h0; apply hs; rw [h0]; rfl
      simp [handleIrqLoop, hne]
    | succ n ih =>
      intro fifo irq hs
      have hne : irq ≠ 0 := by
        intro h0; apply hs; rw [h0]; rfl
      have hs' : (handleIrqBody fifo irq).2.2 &&& UNRECOGNIZED_MASK ≠ 0 := by
        rw [handleIrqBody_preserves_unrecognized]; exact hs
      simp [handleIrqLoop, hne, ih _ _ hs']
  intro fuel
  exact key fuel fifo pending hbad

/-- Witness for C2 at the concrete snapshot `pending = 1` (bit 0, System Timer 0,
which is outside the recognized set): the loop diverges at every tried fuel. -/
theorem handle_irq_unrecognized_diverges_witness :
    (1 : Nat) &&& UNRECOGNIZED_MASK ≠ 0 ∧ handle_irq 5 [] 1 = none :=
  ⟨by decide, handle_irq_unrecognized_diverges [] 1 (by decide) 5⟩

/-! ## `memzero` (`source/mm.S`)

```
memzero:
    str xzr, [x0], #8   // store zero at [x0], post-increment x0 by 8
    subs x1, x1, #8     // x1 -= 8, setting flags
    b.gt memzero        // loop while x1 > 0 (signed)
    ret
```

Memory is modelled as a map from byte addresses to the 64-bit word stored
there; `memzero` only ever stores at `start + 8*k`, so keying cells by their
byte address is faithful.  Per the C prototype `void memzero(uint64_t src,
uint32_t n)` the byte count arrives in a 32-bit register, so `count < 2^32` and
the signed `b.gt` test coincides with the `Nat` comparison `8 < count`. -/

def Mem : Type := Nat → Nat

/-- A 64-bit store: `str val, [addr]`. -/
def store64 (mem : Mem) (addr val : Nat) : Mem :=
  fun a => if a = addr then val else mem a

/-- The `memzero` loop.  Note the store is executed *before* the counter test
(do-while shape): even for `count = 0` one word is written. -/
def memzero (mem : Mem) (addr count : Nat) : Mem :=
  let mem1 := store64 mem addr 0
  if h : 8 < count then memzero mem1 (addr + 8) (count - 8) else mem1
termination_by count
decreasing_by omega

/-! ### C3: corrected.  For positive multiples of 8 the claim holds, but for
`count = 0` the do-while loop still writes one word at `start`. -/

/-- **C3 counterexample.** The claim "for count = 0 it writes nothing" fails:
`memzero` over all-ones memory with `count = 0` changes the word at the start
address (here address 100) from 1 to 0. -/
theorem memzero_zero_count_still_writes :
    ¬ (∀ a, memzero (fun _ => 1) 100 0 a = (fun _ => (1 : Nat)) a) := by
  intro h
  have h100 := h 100
  rw [memzero] at h100
  simp [store64] at h100

/-- **C3 (amended).** For every start address and every byte count `8 * k`,
`memzero` writes zero to exactly the words at `start + 8*i` for
`i < max k 1` — i.e. to every word in `[start, start+count)` when the count is
positive, and to the single word at `start` when the count is zero — and leaves
every other memory cell untouched. -/
theorem memzero_writes_exactly (k : Nat) (mem : Mem) (addr a : Nat) :
    ((∃ i, i < max k 1 ∧ a = addr + 8 * i) → memzero mem addr (8 * k) a = 0) ∧
    ((∀ i, i < max k 1 → a ≠ addr + 8 * i) → memzero mem addr (8 * k) a = mem a) := by
  induction k generalizing mem addr with
  | zero =>
    rw [memzero]
    constructor
    · rintro ⟨i, hi, rfl⟩
      have : i = 0 := by omega
      subst this
      simp [store64]
    · intro hno
      have : a ≠ addr := by
        have := hno 0 (by omega)
        simpa using this
      simp [store64, this]
  | succ k ih =>
    rw [memzero]
    rcases Nat.eq_zero_or_pos k with hk | hk
    · subst hk
      simp only [show ¬ (8 < 8 * 1) by omega, dite_false]
      constructor
      · rintro ⟨i, hi, rfl⟩
        have : i = 0 := by omega
        subst this
        simp [store64]
      · intro hno
        have : a ≠ addr := by
          have := hno 0 (by omega)
          simpa using this
        simp [store64, this]
    · have hgt : 8 < 8 * (k + 1) := by omega
      simp only [hgt, dite_true]
      have hcount : 8 * (k + 1) - 8 = 8 * k := by omega
      rw [hcount]
      obtain ⟨ihz, ihkeep⟩ := ih (store64 mem addr 0) (addr + 8)
      constructor
      · rintro ⟨i, hi, rfl⟩
        rcases Nat.eq_zero_or_pos i with hi0 | hipos
        · subst hi0
          rw [ihkeep]
          · simp [store64]
          · intro j hj
            omega
        · apply ihz
          exact ⟨i - 1, by omega, by omega⟩
      · intro hno
        rw [ihkeep]
        · have : a ≠ addr := by
            have := hno 0 (by omega)
            simpa using this
          simp [store64, this]
        · intro j hj
          have := hno (j + 1) (by omega)
          omega

/-- Witness for C3 (amended) at `k = 2`, `addr = 16`: the word at `16 + 8` is
zeroed and the word at `8` (outside the range) is untouched. -/
theorem memzero_writes_exactly_witness :
    memzero (fun _ => 7) 16 16 24 = 0 ∧ memzero (fun _ => 7) 16 16 8 = 7 :=
  ⟨(memzero_writes_exactly 2 (fun _ => 7) 16 24).1 ⟨1, by omega, by omega⟩,
   (memzero_writes_exactly 2 (fun _ => 7) 16 8).2 (by intro i hi; omega)⟩

/-! ## The system-timer driver (`source/timer.c`)

`struct TIMER_Registers { CS; LO; HI; CMPR[4]; }` (`include/timer.h`), with
`#define ARM_CLOCK_FREQUENCY_HZ 1200000`, `TIMER_1 = 1`, `TIMER_3 = 3`.
The ACT LED is modelled as a Boolean toggled by `act_led_toggle()`. -/

def ARM_CLOCK_FREQUENCY_HZ : Nat := 1200000

def TIMER_1 : Nat := 1

def TIMER_3 : Nat := 3

/-- The system-timer register block, all registers 32-bit. -/
structure TimerRegs where
  CS : Nat
  LO : Nat
  HI : Nat
  CMPR : Fin 4 → Nat

/-- `timer_set_compare(compare_idx, value)`: `TIMER->CMPR[compare_idx] = value`. -/
def timer_set_compare (t : TimerRegs) (compare_idx : Fin 4) (value : Nat) : TimerRegs :=
  { t with CMPR := fun i => if i = compare_idx then value else t.CMPR i }

/-- `timer_clear_interrupt(timer_idx)`: `TIMER->CS |= 1 << timer_idx` — a
read-modify-write of the shared control/status register.  The new CS value is
the value the store places on the bus. -/
def timer_clear_interrupt (t : TimerRegs) (timer_idx : Nat) : TimerRegs :=
  { t with CS := t.CS ||| (1 <<< timer_idx) }

/-- `timer_init(timer_idx)`: for `TIMER_1`, program `CMPR[1]` to
`timer_get_lower() + ARM_CLOCK_FREQUENCY_HZ/2` (32-bit add) and toggle the ACT
LED; for `TIMER_3` the body is empty. -/
def timer_init (t : TimerRegs) (led : Bool) (timer_idx : Nat) : TimerRegs × Bool :=
  if timer_idx = TIMER_1 then
    (timer_set_compare t 1 ((t.LO + ARM_CLOCK_FREQUENCY_HZ / 2) % 2 ^ 32), !led)
  else (t, led)

/-- `handle_timer(timer_idx)`: re-initialize the timer, then clear its
interrupt flag. -/
def handle_timer (t : TimerRegs) (led : Bool) (timer_idx : Nat) : TimerRegs × Bool :=
  let p := timer_init t led timer_idx
  (timer_clear_interrupt p.1 timer_idx, p.2)

/-! ### C10: the CS acknowledgment write is not confined to one timer's bit -/

/-- **C10.** Acknowledging a timer interrupt is a read-modify-write
(`CS |= 1 << i`) of the shared control/status register: for every pair of
distinct timers `i` and `j`, if timer `j`'s match flag is set in `CS` when
`handle_timer(i)` performs its acknowledgment write, the written CS value also
carries a 1 in (and, the register being write-1-to-clear, thereby clears)
timer `j`'s flag position. -/
theorem handle_timer_cs_write_hits_other_flags (t : TimerRegs) (led : Bool)
    (i j : Nat) (hij : i ≠ j) (hj : t.CS.testBit j = true) :
    ((handle_timer t led i).1.CS).testBit j = true := by
  unfold handle_timer timer_init timer_set_compare timer_clear_interrupt
  split <;> simp [Nat.testBit_lor, hj]

/-- Witness for C10: `CS = 8` (timer 3's flag set) and `handle_timer(1)`; the
written CS value `8 ||| 2 = 10` still has bit 3 set. -/
theorem handle_timer_cs_write_hits_other_flags_witness :
    (1 : Nat) ≠ 3 ∧ (8 : Nat).testBit 3 = true ∧
      ((handle_timer ⟨8, 0, 0, fun _ => 0⟩ false 1).1.CS).testBit 3 = true :=
  ⟨by decide, by decide,
   handle_timer_cs_write_hits_other_flags ⟨8, 0, 0, fun _ => 0⟩ false 1 3
     (by decide) (by decide)⟩

/-! ## The boot path (`source/boot.S`)

Register values from `include/sysregs.h` (`BIT_0(x) = 0`, `BIT_1(x) = 1 << x`,
`SHIFT(v,p) = v << p`):
 * `CPACR_EL1_VAL = CPACR_FPEN_DISABLE = 3 << 20`
 * `SCTLR_EL1_VAL = SCTLR_MMU_DISABLE | SCTLR_DATA_C_DISABLE | SCTLR_INSTR_I_DISABLE | SCTLR_E1E_LITTLE = 0`
 * `HCR_EL2_VAL  = HCR_EL1_ARCH_64 = 1 << 31`
 * `SCR_EL3_VAL  = SCR_NS_ENABLE | SCR_RW_ARCH64 = 1 | (1 << 10)`
 * `SPSR_EL3_VAL = SPSR_M_EL1h | SPSR_FIQ_F_MASK_DISABLE | SPSR_IRQ_I_MASK_DISABLE | SPSR_SER_A_MASK_DISABLE = 5 | (1<<6) | (1<<7) | (1<<8)`
-/

def CPACR_EL1_VAL : Nat := 3 <<< 20

def SCTLR_EL1_VAL : Nat := 0

def HCR_EL2_VAL : Nat := 1 <<< 31

def SCR_EL3_VAL : Nat := 1 ||| (1 <<< 10)

def SPSR_EL3_VAL : Nat := 5 ||| (1 <<< 6) ||| (1 <<< 7) ||| (1 <<< 8)

/-- The system registers written by the `master` block of `boot.S`. -/
inductive SysReg
  | cpacr_el1
  | sctlr_el1
  | hcr_el2
  | scr_el3
  | spsr_el3
  | elr_el3
deriving DecidableEq, Repr

/-- Observable boot events: a system-register write, the exception return, or a
wait-for-event in the parked-core loop. -/
inductive BootEvent
  | wrote (r : SysReg) (v : Nat)
  | eretTaken
  | wfeWait
deriving DecidableEq, Repr

/-- The instructions of `boot.S` that the modelled boot path executes. -/
inductive BootInstr
  | mrsMpidr          -- mrs x0, mpidr_el1
  | andImm (m : Nat)  -- and x0, x0, #m
  | cbz (target : Nat)   -- cbz x0, target
  | br (target : Nat)    -- b target
  | movImm (v : Nat)  -- ldr x0, =VALUE / adr x0, label
  | msr (r : SysReg)  -- msr r, x0
  | eretInstr         -- eret
  | wfeInstr          -- wfe
deriving DecidableEq, Repr

/-- Instruction fetch for `boot.S`, program counter 0–18.  `el1secure` is the
link-time address of the `el1_secure` label loaded by `adr x0, el1_secure`.

```
 0: _start:    mrs x0, mpidr_el1
 1:            and x0, x0, #0xFF
 2:            cbz x0, master        (master = 4)
 3:            b proc_hang           (proc_hang = 17)
 4: master:    ldr x0, =CPACR_EL1_VAL
 5:            msr cpacr_el1, x0
 6:            ldr x0, =SCTLR_EL1_VAL
 7:            msr sctlr_el1, x0
 8:            ldr x0, =HCR_EL2_VAL
 9:            msr hcr_el2, x0
10:            ldr x0, =SCR_EL3_VAL
11:            msr scr_el3, x0
12:            ldr x0, =SPSR_EL3_VAL
13:            msr spsr_el3, x0
14:            adr x0, el1_secure
15:            msr elr_el3, x0
16:            eret
17: proc_hang: wfe
18:            b proc_hang
```
-/
def bootFetch (el1secure : Nat) : Nat → Option BootInstr
  | 0 => some .mrsMpidr
  | 1 => some (.andImm 0xFF)
  | 2 => some (.cbz 4)
  | 3 => some (.br 17)
  | 4 => some (.movImm CPACR_EL1_VAL)
  | 5 => some (.msr .cpacr_el1)
  | 6 => some (.movImm SCTLR_EL1_VAL)
  | 7 => some (.msr .sctlr_el1)
  | 8 => some (.movImm HCR_EL2_VAL)
  | 9 => some (.msr .hcr_el2)
  | 10 => some (.movImm SCR_EL3_VAL)
  | 11 => some (.msr .scr_el3)
  | 12 => some (.movImm SPSR_EL3_VAL)
  | 13 => some (.msr .spsr_el3)
  | 14 => some (.movImm el1secure)
  | 15 => some (.msr .elr_el3)
  | 16 => some .eretInstr
  | 17 => some .wfeInstr
  | 18 => some (.br 17)
  | _ => none

/-- Boot-machine state: program counter, the `x0` scratch register, the trace
of observable events, and whether the modelled run has ended (`eret` taken). -/
structure BootState where
  pc : Nat
  x0 : Nat
  trace : List BootEvent
  halted : Bool
deriving DecidableEq, Repr

/-- One instruction step of the boot machine.  `mpidr` is the value the
hardware delivers for `mrs x0, mpidr_el1`. -/
def bootStep (el1secure mpidr : Nat) (s : BootState) : BootState :=
  if s.halted then s
  else
    match bootFetch el1secure s.pc with
    | none => { s with halted := true }
    | some i =>
      match i with
      | .mrsMpidr => { s with x0 := mpidr, pc := s.pc + 1 }
      | .andImm m => { s with x0 := s.x0 &&& m, pc := s.pc + 1 }
      | .cbz t => if s.x0 = 0 then { s with pc := t } else { s with pc := s.pc + 1 }
      | .br t => { s with pc := t }
      | .movImm v => { s with x0 := v, pc := s.pc + 1 }
      | .msr r => { s with trace := s.trace ++ [.wrote r s.x0], pc := s.pc + 1 }
      | .eretInstr => { s with trace := s.trace ++ [.eretTaken], halted := true }
      | .wfeInstr => { s with trace := s.trace ++ [.wfeWait], pc := s.pc + 1 }

/-- Run the boot machine `n` steps from the reset state (pc at `_start`,
arbitrary initial `x0`, empty trace). -/
def bootRun (el1secure mpidr x0 : Nat) : Nat → BootState
  | 0 => ⟨0, x0, [], false⟩
  | n + 1 => bootStep el1secure mpidr (bootRun el1secure mpidr x0 n)

theorem bootStep_halted (el1secure mpidr : Nat) (s : BootState)
    (h : s.halted = true) : bootStep el1secure mpidr s = s := by
  simp [bootStep, h]

/-! ### C4: the master core's register writes happen in order, before `eret` -/

/-- **C4.** On the boot path taken by the master core (core-identifier field of
`mpidr_el1` equal to zero), every sufficiently long run has exactly the event
trace `CPACR_EL1, SCTLR_EL1, HCR_EL2, SCR_EL3, SPSR_EL3, ELR_EL3` writes in
that relative order, each with its `sysregs.h` value, all strictly before the
single exception return — after which the modelled run has ended. -/
theorem master_descent_order (el1secure mpidr x0 n : Nat)
    (hm : mpidr &&& 0xFF = 0) (hn : 16 ≤ n) :
    (bootRun el1secure mpidr x0 n).trace =
      [BootEvent.wrote SysReg.cpacr_el1 CPACR_EL1_VAL,
       BootEvent.wrote SysReg.sctlr_el1 SCTLR_EL1_VAL,
       BootEvent.wrote SysReg.hcr_el2 HCR_EL2_VAL,
       BootEvent.wrote SysReg.scr_el3 SCR_EL3_VAL,
       BootEvent.wrote SysReg.spsr_el3 SPSR_EL3_VAL,
       BootEvent.wrote SysReg.elr_el3 el1secure,
       BootEvent.eretTaken] ∧
    (bootRun el1secure mpidr x0 n).halted = true := by
  have h16 : bootRun el1secure mpidr x0 16 =
      ⟨16, el1secure,
       [BootEvent.wrote SysReg.cpacr_el1 CPACR_EL1_VAL,
        BootEvent.wrote SysReg.sctlr_el1 SCTLR_EL1_VAL,
        BootEvent.wrote SysReg.hcr_el2 HCR_EL2_VAL,
        BootEvent.wrote SysReg.scr_el3 SCR_EL3_VAL,
        BootEvent.wrote SysReg.spsr_el3 SPSR_EL3_VAL,
        BootEvent.wrote SysReg.elr_el3 el1secure,
        BootEvent.eretTaken], true⟩ := by
    simp [bootRun, bootStep, bootFetch, hm]
  obtain ⟨m, rfl⟩ : ∃ m, n = m + 16 := ⟨n - 16, by omega⟩
  clear hn
  induction m with
  | zero => rw [show (0 + 16 : Nat) = 16 by rfl, h16]; exact ⟨rfl, rfl⟩
  | succ m ih =>
    have : bootRun el1secure mpidr x0 (m + 1 + 16) =
        bootStep el1secure mpidr (bootRun el1secure mpidr x0 (m + 16)) := rfl
    rw [this, bootStep_halted _ _ _ ih.2]
    exact ih

/-- Witness for C4 at `mpidr = 0`, `n = 16`. -/
theorem master_descent_order_witness :
    (bootRun 0x80000 0 0 16).trace =
      [BootEvent.wrote SysReg.cpacr_el1 CPACR_EL1_VAL,
       BootEvent.wrote SysReg.sctlr_el1 SCTLR_EL1_VAL,
       BootEvent.wrote SysReg.hcr_el2 HCR_EL2_VAL,
       BootEvent.wrote SysReg.scr_el3 SCR_EL3_VAL,
       BootEvent.wrote SysReg.spsr_el3 SPSR_EL3_VAL,
       BootEvent.wrote SysReg.elr_el3 0x80000,
       BootEvent.eretTaken] ∧
    (bootRun 0x80000 0 0 16).halted = true :=
  master_descent_order 0x80000 0 0 16 (by decide) (by decide)

/-! ### C5: single-core admission -/

/-- Invariant of the boot machine on a secondary core (non-zero core id):
the run has not ended, no system-register write has been traced, and the
program counter is inside the selector (0–3) or the `proc_hang` loop (17–18),
with `x0` tracked where the selector needs it. -/
def SecondaryInv (mpidr : Nat) (s : BootState) : Prop :=
  s.halted = false ∧ (∀ r v, BootEvent.wrote r v ∉ s.trace) ∧
  (s.pc = 0 ∨ (s.pc = 1 ∧ s.x0 = mpidr) ∨ (s.pc = 2 ∧ s.x0 = mpidr &&& 0xFF) ∨
   s.pc = 3 ∨ s.pc = 17 ∨ s.pc = 18)

theorem SecondaryInv_step (el1secure mpidr : Nat) (hm : mpidr &&& 0xFF ≠ 0)
    (s : BootState) (h : SecondaryInv mpidr s) :
    SecondaryInv mpidr (bootStep el1secure mpidr s) := by
  obtain ⟨hh, htr, hpc⟩ := h
  obtain ⟨pc, x0, tr, hl⟩ := s
  simp only at hh htr hpc
  subst hh
  rcases hpc with h0 | ⟨h1, hx⟩ | ⟨h2, hx⟩ | h3 | h17 | h18 <;>
    subst_vars <;>
    simp_all [SecondaryInv, bootStep, bootFetch, hm]

theorem SecondaryInv_pc_loop (el1secure mpidr : Nat) (s : BootState)
    (hh : s.halted = false) (h : s.pc = 17 ∨ s.pc = 18) :
    (bootStep el1secure mpidr s).pc = 17 ∨ (bootStep el1secure mpidr s).pc = 18 := by
  obtain ⟨pc, x0, tr, hl⟩ := s
  simp only at hh h
  subst hh
  rcases h with h | h <;> subst h <;> simp [bootStep, bootFetch]

/-- **C5.** For every value of the core-identifier field (`mpidr_el1 & 0xFF`):
if it is non-zero, the selector never performs any system-register write, the
run never ends, and from step 4 on the machine is inside the two-instruction
`proc_hang` wait-for-event loop (pc 17–18); if it is zero, after the three
selector instructions the machine is at `master` (pc 4), the start of the
privilege descent sequencer. -/
theorem boot_core_selector (el1secure mpidr x0 : Nat) :
    (mpidr &&& 0xFF ≠ 0 →
      ∀ n, (∀ r v, BootEvent.wrote r v ∉ (bootRun el1secure mpidr x0 n).trace) ∧
           (bootRun el1secure mpidr x0 n).halted = false ∧
           (4 ≤ n → 17 ≤ (bootRun el1secure mpidr x0 n).pc ∧
                    (bootRun el1secure mpidr x0 n).pc ≤ 18)) ∧
    (mpidr &&& 0xFF = 0 → (bootRun el1secure mpidr x0 3).pc = 4) := by
  constructor
  · intro hm
    have inv : ∀ n, SecondaryInv mpidr (bootRun el1secure mpidr x0 n) := by
      intro n
      induction n with
      | zero => exact ⟨rfl, by simp [bootRun], Or.inl rfl⟩
      | succ n ih => exact SecondaryInv_step el1secure mpidr hm _ ih
    have pcloop : ∀ m, (bootRun el1secure mpidr x0 (m + 4)).pc = 17 ∨
        (bootRun el1secure mpidr x0 (m + 4)).pc = 18 := by
      intro m
      induction m with
      | zero =>
        left
        show (bootStep el1secure mpidr (bootRun el1secure mpidr x0 3)).pc = 17
        have h3 : bootRun el1secure mpidr x0 3 = ⟨3, mpidr &&& 0xFF, [], false⟩ := by
          have hx : ¬ (mpidr &&& 0xFF = 0) := hm
          simp [bootRun, bootStep, bootFetch, hx]
        rw [h3]
        simp [bootStep, bootFetch]
      | succ m ih =>
        exact SecondaryInv_pc_loop el1secure mpidr _ (inv (m + 4)).1 ih
    intro n
    refine ⟨(inv n).2.1, (inv n).1, fun hn => ?_⟩
    obtain ⟨m, rfl⟩ : ∃ m, n = m + 4 := ⟨n - 4, by omega⟩
    rcases pcloop m with h | h <;> omega
  · intro hm
    simp [bootRun, bootStep, bootFetch, hm]

/-- Witness for C5: at `mpidr = 1` (a secondary core) no configuration write
appears in a 6-step run, which is parked in the wait loop; at `mpidr = 0` the
selector reaches `master`. -/
theorem boot_core_selector_witness :
    BootEvent.wrote SysReg.cpacr_el1 CPACR_EL1_VAL ∉ (bootRun 0 1 0 6).trace ∧
    (bootRun 0 1 0 6).halted = false ∧
    (bootRun 0 0 0 3).pc = 4 :=
  ⟨((boot_core_selector 0 1 0).1 (by decide) 6).1 _ _,
   ((boot_core_selector 0 1 0).1 (by decide) 6).2.1,
   (boot_core_selector 0 0 0).2 (by decide)⟩

/-! ## The context save/restore frame (`source/entry.S`)

`S_FRAME_SIZE = 256` (`include/entry.h`).  `kernel_exception_enter` reserves
256 bytes of stack and stores x0–x29 pairwise (`stp xA, xB, [sp, #16*k]`) plus
`str x30, [sp, #16*15]`; `kernel_exception_exit` reloads every register from
the same offsets, deallocates the frame, and performs `eret` (which does not
touch the general-purpose registers). -/

def S_FRAME_SIZE : Nat := 256

/-- The AArch64 general-purpose registers x0–x30 (x30 is the link register). -/
structure RegFile where
  x0 : Nat
  x1 : Nat
  x2 : Nat
  x3 : Nat
  x4 : Nat
  x5 : Nat
  x6 : Nat
  x7 : Nat
  x8 : Nat
  x9 : Nat
  x10 : Nat
  x11 : Nat
  x12 : Nat
  x13 : Nat
  x14 : Nat
  x15 : Nat
  x16 : Nat
  x17 : Nat
  x18 : Nat
  x19 : Nat
  x20 : Nat
  x21 : Nat
  x22 : Nat
  x23 : Nat
  x24 : Nat
  x25 : Nat
  x26 : Nat
  x27 : Nat
  x28 : Nat
  x29 : Nat
  x30 : Nat
deriving DecidableEq, Repr

/-- CPU state seen by the context macros: the register file, the stack
pointer, and memory. -/
structure CpuState where
  regs : RegFile
  sp : Nat
  mem : Mem

/-- `kernel_exception_enter`: `sub sp, sp, #S_FRAME_SIZE` followed by
`stp x0,x1,[sp,#16*0]` … `stp x28,x29,[sp,#16*14]`, `str x30,[sp,#16*15]`. -/
def kernel_exception_enter (s : CpuState) : CpuState :=
  let sp := s.sp - S_FRAME_SIZE
  let m := s.mem
  let m := store64 m (sp + 0) s.regs.x0
  let m := store64 m (sp + 8) s.regs.x1
  let m := store64 m (sp + 16) s.regs.x2
  let m := store64 m (sp + 24) s.regs.x3
  let m := store64 m (sp + 32) s.regs.x4
  let m := store64 m (sp + 40) s.regs.x5
  let m := store64 m (sp + 48) s.regs.x6
  let m := store64 m (sp + 56) s.regs.x7
  let m := store64 m (sp + 64) s.regs.x8
  let m := store64 m (sp + 72) s.regs.x9
  let m := store64 m (sp + 80) s.regs.x10
  let m := store64 m (sp + 88) s.regs.x11
  let m := store64 m (sp + 96) s.regs.x12
  let m := store64 m (sp + 104) s.regs.x13
  let m := store64 m (sp + 112) s.regs.x14
  let m := store64 m (sp + 120) s.regs.x15
  let m := store64 m (sp + 128) s.regs.x16
  let m := store64 m (sp + 136) s.regs.x17
  let m := store64 m (sp + 144) s.regs.x18
  let m := store64 m (sp + 152) s.regs.x19
  let m := store64 m (sp + 160) s.regs.x20
  let m := store64 m (sp + 168) s.regs.x21
  let m := store64 m (sp + 176) s.regs.x22
  let m := store64 m (sp + 184) s.regs.x23
  let m := store64 m (sp + 192) s.regs.x24
  let m := store64 m (sp + 200) s.regs.x25
  let m := store64 m (sp + 208) s.regs.x26
  let m := store64 m (sp + 216) s.regs.x27
  let m := store64 m (sp + 224) s.regs.x28
  let m := store64 m (sp + 232) s.regs.x29
  let m := store64 m (sp + 240) s.regs.x30
  { regs := s.regs, sp := sp, mem := m }

/-- `kernel_exception_exit`: `ldp x0,x1,[sp,#16*0]` … `ldr x30,[sp,#16*15]`,
then `add sp, sp, #S_FRAME_SIZE` and `eret`. -/
def kernel_exception_exit (s : CpuState) : CpuState :=
  { regs :=
      { x0 := s.mem (s.sp + 0)
        x1 := s.mem (s.sp + 8)
        x2 := s.mem (s.sp + 16)
        x3 := s.mem (s.sp + 24)
        x4 := s.mem (s.sp + 32)
        x5 := s.mem (s.sp + 40)
        x6 := s.mem (s.sp + 48)
        x7 := s.mem (s.sp + 56)
        x8 := s.mem (s.sp + 64)
        x9 := s.mem (s.sp + 72)
        x10 := s.mem (s.sp + 80)
        x11 := s.mem (s.sp + 88)
        x12 := s.mem (s.sp + 96)
        x13 := s.mem (s.sp + 104)
        x14 := s.mem (s.sp + 112)
        x15 := s.mem (s.sp + 120)
        x16 := s.mem (s.sp + 128)
        x17 := s.mem (s.sp + 136)
        x18 := s.mem (s.sp + 144)
        x19 := s.mem (s.sp + 152)
        x20 := s.mem (s.sp + 160)
        x21 := s.mem (s.sp + 168)
        x22 := s.mem (s.sp + 176)
        x23 := s.mem (s.sp + 184)
        x24 := s.mem (s.sp + 192)
        x25 := s.mem (s.sp + 200)
        x26 := s.mem (s.sp + 208)
        x27 := s.mem (s.sp + 216)
        x28 := s.mem (s.sp + 224)
        x29 := s.mem (s.sp + 232)
        x30 := s.mem (s.sp + 240) }
    sp := s.sp + S_FRAME_SIZE
    mem := s.mem }

/-! ### C6: save-then-restore is the identity on registers and stack pointer -/

/-- **C6.** For arbitrary contents of x0–x30, the stack pointer and memory,
running `kernel_exception_enter` immediately followed by
`kernel_exception_exit` (no intervening modification of the saved frame or the
stack pointer) restores every register x0–x30 — including the link register —
and the stack pointer to their pre-save values; the frame reserved is exactly
`S_FRAME_SIZE = 256` bytes.  (The hypothesis `256 ≤ sp` says the frame does
not underflow the bottom of the address space.) -/
theorem context_frame_roundtrip (s : CpuState) (h : S_FRAME_SIZE ≤ s.sp) :
    (kernel_exception_exit (kernel_exception_enter s)).regs = s.regs ∧
    (kernel_exception_exit (kernel_exception_enter s)).sp = s.sp ∧
    (kernel_exception_enter s).sp = s.sp - S_FRAME_SIZE := by
  refine ⟨?_, ?_, rfl⟩
  · simp [kernel_exception_exit, kernel_exception_enter, store64, add_right_inj]
  · show s.sp - S_FRAME_SIZE + S_FRAME_SIZE = s.sp
    have : S_FRAME_SIZE = 256 := rfl
    omega

/-- Witness for C6 at a concrete state (`sp = 1000`, registers 1–31, zeroed
memory). -/
theorem context_frame_roundtrip_witness :
    S_FRAME_SIZE ≤ 1000 ∧
    (kernel_exception_exit (kernel_exception_enter
      ⟨⟨1, 2, 3, 4, 5, 6, 7, 8, 9, 10, 11, 12, 13, 14, 15, 16, 17, 18, 19, 20,
        21, 22, 23, 24, 25, 26, 27, 28, 29, 30, 31⟩, 1000, fun _ => 0⟩)).regs =
      ⟨1, 2, 3, 4, 5, 6, 7, 8, 9, 10, 11, 12, 13, 14, 15, 16, 17, 18, 19, 20,
        21, 22, 23, 24, 25, 26, 27, 28, 29, 30, 31⟩ ∧
    (kernel_exception_exit (kernel_exception_enter
      ⟨⟨1, 2, 3, 4, 5, 6, 7, 8, 9, 10, 11, 12, 13, 14, 15, 16, 17, 18, 19, 20,
        21, 22, 23, 24, 25, 26, 27, 28, 29, 30, 31⟩, 1000, fun _ => 0⟩)).sp = 1000 :=
  ⟨by decide,
   (context_frame_roundtrip _ (by decide)).1,
   (context_frame_roundtrip _ (by decide)).2.1⟩

/-! ## The exception vector table and invalid-entry path (`source/entry.S`,
`source/irq.c`)

`entry_error_message` is the `const char [16][32]` table of `irq.c`; slot `i`
of the vector table (for `i ≠ 5`) expands `handle_invalid_entry i`, and slot 5
(IRQ at EL1 with SP_EL1) brackets `bl handle_irq` with the context macros. -/

/-- The 16 diagnostic names of `entry_error_message` in `irq.c`. -/
def entry_error_message : List String :=
  ["VECTOR_INVALID_SYN_EL1_SP_EL0",
   "VECTOR_INVALID_IRQ_EL1_SP_EL0",
   "VECTOR_INVALID_FIQ_EL1_SP_EL0",
   "VECTOR_INVALID_SER_EL1_SP_EL0",
   "VECTOR_INVALID_SYN_EL1_SP_EL1",
   "VECTOR_INVALID_IRQ_EL1_SP_EL1",
   "VECTOR_INVALID_FIQ_EL1_SP_EL1",
   "VECTOR_INVALID_SER_EL1_SP_EL1",
   "VECTOR_INVALID_SYN_EL0_AARCH64",
   "VECTOR_INVALID_IRQ_EL0_AARCH64",
   "VECTOR_INVALID_FIQ_EL0_AARCH64",
   "VECTOR_INVALID_SER_EL0_AARCH64",
   "VECTOR_INVALID_SYN_EL0_AARCH32",
   "VECTOR_INVALID_IRQ_EL0_AARCH32",
   "VECTOR_INVALID_FIQ_EL0_AARCH32",
   "VECTOR_INVALID_SER_EL0_AARCH32"]

/-- What a vector slot's trampoline branches into. -/
inductive HandlerKind
  /-- `handle_invalid_entry ty`: context save, diagnostic, `b err_hang`. -/
  | invalidEntry (ty : Nat)
  /-- slot 5: `kernel_exception_enter; bl handle_irq; kernel_exception_exit`. -/
  | irqEntry
deriving DecidableEq, Repr

/-- The 16 slots of `vector_table` in `entry.S`: `handler_vector_i` expands
`handle_invalid_entry VECTOR_INVALID_…` (whose `entry.h` value is `i`) for
every `i` except 5, which is the implemented IRQ path. -/
def vector_table : List HandlerKind :=
  [.invalidEntry 0, .invalidEntry 1, .invalidEntry 2, .invalidEntry 3,
   .invalidEntry 4, .irqEntry, .invalidEntry 6, .invalidEntry 7,
   .invalidEntry 8, .invalidEntry 9, .invalidEntry 10, .invalidEntry 11,
   .invalidEntry 12, .invalidEntry 13, .invalidEntry 14, .invalidEntry 15]

/-- A collaborator call made by an invalid-entry handler: the diagnostic
emission `show_invalid_entry_message(ty, esr, addr)`, which prints the name
`entry_error_message[ty]`. -/
inductive HEvent
  | callShow (msg : String) (ty esr addr : Nat)
deriving DecidableEq, Repr

/-- State of the invalid-entry trampoline machine: program point within the
`handle_invalid_entry` expansion, the argument registers, and the trace of
collaborator calls. -/
structure HState where
  pc : Nat
  x0 : Nat
  x1 : Nat
  x2 : Nat
  trace : List HEvent
deriving DecidableEq, Repr

/-- One step of the `handle_invalid_entry ty` expansion:

```
0: kernel_exception_enter
1: mov x0, #ty
2: mrs x1, esr_el1
3: mrs x2, elr_el1
4: bl show_invalid_entry_message
5: b err_hang
6: err_hang: b err_hang
```

`esr`/`addr` are the values the hardware delivers for `esr_el1`/`elr_el1`. -/
def handle_invalid_entry_step (ty esr addr : Nat) (s : HState) : HState :=
  match s.pc with
  | 0 => { s with pc := 1 }
  | 1 => { s with pc := 2, x0 := ty }
  | 2 => { s with pc := 3, x1 := esr }
  | 3 => { s with pc := 4, x2 := addr }
  | 4 => { s with
           pc := 5
           trace := s.trace ++
             [HEvent.callShow (entry_error_message.getD s.x0 "") s.x0 s.x1 s.x2] }
  | 5 => { s with pc := 6 }
  | _ => { s with pc := 6 }

/-- Run the invalid-entry trampoline `n` steps from its entry, with arbitrary
initial contents of x0–x2. -/
def handle_invalid_entry_run (ty esr addr x0 x1 x2 : Nat) : Nat → HState
  | 0 => ⟨0, x0, x1, x2, []⟩
  | n + 1 => handle_invalid_entry_step ty esr addr
      (handle_invalid_entry_run ty esr addr x0 x1 x2 n)

/-! ### C7: the 15 unimplemented slots report once and hang forever -/

/-- **C7.** For each of the 15 vector slots other than slot 5 (IRQ at EL1 with
SP_EL1) and for arbitrary syndrome/faulting-address values and initial register
contents: the slot's trampoline is `handle_invalid_entry slot`; from step 5 on
the trace holds exactly one diagnostic-emission call, carrying that slot's name
string `entry_error_message[slot]` and the syndrome and faulting-address values
as arguments; and from step 6 on the machine sits forever at the `err_hang`
self-branch (pc 6), never returning to the interrupted code. -/
theorem invalid_vector_slots (slot esr addr x0 x1 x2 : Nat)
    (h16 : slot < 16) (h5 : slot ≠ 5) :
    vector_table.getD slot .irqEntry = HandlerKind.invalidEntry slot ∧
    (∀ n, 5 ≤ n → (handle_invalid_entry_run slot esr addr x0 x1 x2 n).trace =
        [HEvent.callShow (entry_error_message.getD slot "") slot esr addr]) ∧
    (∀ n, 6 ≤ n → (handle_invalid_entry_run slot esr addr x0 x1 x2 n).pc = 6) := by
  have e1 : handle_invalid_entry_run slot esr addr x0 x1 x2 1 =
      ⟨1, x0, x1, x2, []⟩ := rfl
  have e2 : handle_invalid_entry_run slot esr addr x0 x1 x2 2 =
      ⟨2, slot, x1, x2, []⟩ := by
    show handle_invalid_entry_step slot esr addr
      (handle_invalid_entry_run slot esr addr x0 x1 x2 1) = _
    rw [e1]
    rfl
  have e3 : handle_invalid_entry_run slot esr addr x0 x1 x2 3 =
      ⟨3, slot, esr, x2, []⟩ := by
    show handle_invalid_entry_step slot esr addr
      (handle_invalid_entry_run slot esr addr x0 x1 x2 2) = _
    rw [e2]
    rfl
  have e4 : handle_invalid_entry_run slot esr addr x0 x1 x2 4 =
      ⟨4, slot, esr, addr, []⟩ := by
    show handle_invalid_entry_step slot esr addr
      (handle_invalid_entry_run slot esr addr x0 x1 x2 3) = _
    rw [e3]
    rfl
  have e5 : handle_invalid_entry_run slot esr addr x0 x1 x2 5 =
      ⟨5, slot, esr, addr,
       [HEvent.callShow (entry_error_message.getD slot "") slot esr addr]⟩ := by
    show handle_invalid_entry_step slot esr addr
      (handle_invalid_entry_run slot esr addr x0 x1 x2 4) = _
    rw [e4]
    rfl
  have e6 : handle_invalid_entry_run slot esr addr x0 x1 x2 6 =
      ⟨6, slot, esr, addr,
       [HEvent.callShow (entry_error_message.getD slot "") slot esr addr]⟩ := by
    show handle_invalid_entry_step slot esr addr
      (handle_invalid_entry_run slot esr addr x0 x1 x2 5) = _
    rw [e5]
    rfl
  have fix : ∀ m, handle_invalid_entry_run slot esr addr x0 x1 x2 (m + 6) =
      ⟨6, slot, esr, addr,
       [HEvent.callShow (entry_error_message.getD slot "") slot esr addr]⟩ := by
    intro m
    induction m with
    | zero => exact e6
    | succ m ih =>
      show handle_invalid_entry_step slot esr addr
        (handle_invalid_entry_run slot esr addr x0 x1 x2 (m + 6)) = _
      rw [ih]
      rfl
  refine ⟨?_, ?_, ?_⟩
  · interval_cases slot <;> simp_all [vector_table]
  · intro n hn
    rcases Nat.lt_or_ge n 6 with h6 | h6
    · have : n = 5 := by omega
      subst this
      rw [e5]
    · obtain ⟨m, rfl⟩ : ∃ m, n = m + 6 := ⟨n - 6, by omega⟩
      rw [fix m]
  · intro n hn
    obtain ⟨m, rfl⟩ : ∃ m, n = m + 6 := ⟨n - 6, by omega⟩
    rw [fix m]

/-- Witness for C7 at slot 2 (FIQ from EL1 with SP_EL0), syndrome `0x5678`,
address `0x9abc`, 8 steps. -/
theorem invalid_vector_slots_witness :
    vector_table.getD 2 .irqEntry = HandlerKind.invalidEntry 2 ∧
    (handle_invalid_entry_run 2 0x5678 0x9abc 0 0 0 8).trace =
      [HEvent.callShow "VECTOR_INVALID_FIQ_EL1_SP_EL0" 2 0x5678 0x9abc] ∧
    (handle_invalid_entry_run 2 0x5678 0x9abc 0 0 0 8).pc = 6 :=
  ⟨(invalid_vector_slots 2 0x5678 0x9abc 0 0 0 (by decide) (by decide)).1,
   (invalid_vector_slots 2 0x5678 0x9abc 0 0 0 (by decide) (by decide)).2.1 8
     (by decide),
   (invalid_vector_slots 2 0x5678 0x9abc 0 0 0 (by decide) (by decide)).2.2 8
     (by decide)⟩

/-! ## Kernel start-up (`source/kernel.c`, `source/irq_asm.S`)

`kernel_main` runs a fixed sequence of initialization calls and then spins.
The observable events are the privileged/peripheral register writes those
callees perform: `irq_init` is `msr vbar_el1, vector_table` (`irq_asm.S`),
`irq_enable` is `msr daifclr, #2`, and `enable_interrupt_controller` writes
`AUX_IRQ | TIMER_1_IRQ | TIMER_3_IRQ` to `EnableIRQs1`. -/

/-- Start-up events observable at the register level, plus opaque markers for
the other collaborator calls. -/
inductive KEvent
  | gpioInitCall
  | uartInitCall
  | print (fmt : String)
  /-- `msr vbar_el1, vector_table` performed by `irq_init`. -/
  | vbarWrite
  /-- write of the enable mask to `EnableIRQs1` by `enable_interrupt_controller`. -/
  | enableIRQs1Write (mask : Nat)
  /-- `msr daifclr, #2` performed by `irq_enable`: clears the IRQ mask bit. -/
  | daifClear
  | timerInitCall (idx : Nat)
  | idleLoop
deriving DecidableEq, BEq, Repr

/-- The statements of `kernel_main`, in source order. -/
inductive KStmt
  | callGpioInit
  | callUartInit
  | callUartPrintf (fmt : String)
  | callIrqInit
  | callEnableInterruptController
  | callIrqEnable
  | callTimerInit (idx : Nat)
  | loopForever
deriving DecidableEq, Repr

/-- The body of `kernel_main` (`kernel.c`), one entry per statement. -/
def kernel_main : List KStmt :=
  [.callGpioInit,
   .callUartInit,
   .callUartPrintf "Raspberry PI bare metal kernel initialization... \n",
   .callUartPrintf "Platform : Raspberry PI %d B + \n",
   .callUartPrintf "Current EL : %i\n",
   .callUartPrintf "Curren SP : %i\n",
   .callIrqInit,
   .callEnableInterruptController,
   .callIrqEnable,
   .callTimerInit TIMER_1,
   .callTimerInit TIMER_3,
   .loopForever]

/-- The register-level events each statement's callee performs. -/
def kstmt_events : KStmt → List KEvent
  | .callGpioInit => [.gpioInitCall]
  | .callUartInit => [.uartInitCall]
  | .callUartPrintf fmt => [.print fmt]
  | .callIrqInit => [.vbarWrite]
  | .callEnableInterruptController => [.enableIRQs1Write RECOGNIZED_IRQS]
  | .callIrqEnable => [.daifClear]
  | .callTimerInit idx => [.timerInitCall idx]
  | .loopForever => [.idleLoop]

/-- The event trace of one `kernel_main` run up to the idle loop. -/
def kernel_main_trace : List KEvent :=
  (kernel_main.map kstmt_events).flatten

/-! ### C8: the vector-base write happens exactly once, before the unmask -/

/-- **C8.** In the kernel start-up sequence the vector-base register write
(`irq_init`, `msr vbar_el1`) is performed exactly once, and it occurs strictly
before interrupts are globally enabled (the `irq_enable` call clearing the IRQ
mask bit via `msr daifclr, #2`, which is also performed exactly once). -/
theorem irq_init_once_before_enable :
    kernel_main_trace.count KEvent.vbarWrite = 1 ∧
    kernel_main_trace.count KEvent.daifClear = 1 ∧
    kernel_main_trace.indexOf KEvent.vbarWrite <
      kernel_main_trace.indexOf KEvent.daifClear ∧
    kernel_main_trace.indexOf KEvent.daifClear < kernel_main_trace.length := by
  decide

/-! ## Formatted UART output (`source/uart_printf.c`, `source/mini_uart.c`)

Output is modelled as the list of characters handed to `uart_send`.  Variadic
arguments follow the AAPCS64 calling convention of the repository's only
target: every integer-class variadic argument occupies one 64-bit slot, and
`va_arg(args, int)` reads the low 32 bits of the slot as a signed 32-bit
integer (this is how `uart_printf`'s `%X` case sees a `uint64_t` argument). -/

/-- One AAPCS64 variadic-argument slot. -/
inductive VaSlot
  /-- An integer slot; `w` is the full 64-bit value placed in it. -/
  | word (w : Nat)
  /-- A `char *` slot: a pointer to this NUL-terminated string. -/
  | strp (s : String)
deriving DecidableEq, Repr

/-- `va_arg(args, int)`: the low 32 bits of the slot, as a signed 32-bit value. -/
def va_int : VaSlot → Int
  | .word w =>
    if w % 2 ^ 32 < 2 ^ 31 then ((w % 2 ^ 32 : Nat) : Int)
    else ((w % 2 ^ 32 : Nat) : Int) - 2 ^ 32
  | .strp _ => 0

/-- `va_arg(args, unsigned int)`: the low 32 bits of the slot. -/
def va_uint : VaSlot → Nat
  | .word w => w % 2 ^ 32
  | .strp _ => 0

/-- `va_arg(args, long long int)`: the slot as a signed 64-bit value. -/
def va_longlong : VaSlot → Int
  | .word w => if w < 2 ^ 63 then (w : Int) else (w : Int) - 2 ^ 64
  | .strp _ => 0

/-- `va_arg(args, unsigned long long int)`: the slot as is. -/
def va_ulonglong : VaSlot → Nat
  | .word w => w
  | .strp _ => 0

/-- `va_arg(args, char*)`. -/
def va_string : VaSlot → String
  | .strp s => s
  | .word _ => ""

/-- Decimal digits of `n`, most significant first; empty for `n = 0` (mirrors
the digit-collection loops: `while (num > 0) buffer[i++] = num % 10 + '0'`
followed by printing the buffer in reverse). -/
def decDigits (n : Nat) : List Char :=
  if h : n = 0 then []
  else decDigits (n / 10) ++ [Char.ofNat (n % 10 + 48)]
termination_by n
decreasing_by exact Nat.div_lt_self (Nat.pos_of_ne_zero h) (by omega)

/-- `hex_digits_lower[d]` / `hex_digits_upper[d]` from `uart_print_hex`. -/
def hexDigitChar (uppercase : Bool) (d : Nat) : Char :=
  (if uppercase then "0123456789ABCDEF" else "0123456789abcdef").toList.getD d '0'

/-- Hexadecimal digits of `n`, most significant first; empty for `n = 0`. -/
def hexDigits (uppercase : Bool) (n : Nat) : List Char :=
  if h : n = 0 then []
  else hexDigits uppercase (n / 16) ++ [hexDigitChar uppercase (n % 16)]
termination_by n
decreasing_by exact Nat.div_lt_self (Nat.pos_of_ne_zero h) (by omega)

/-- `uart_print_int`: `'0'` for zero, a minus sign then the decimal digits of
the absolute value for negative input, decimal digits otherwise. -/
def uart_print_int (num : Int) : List Char :=
  if num = 0 then ['0']
  else (if num < 0 then ['-'] else []) ++ decDigits num.natAbs

/-- `uart_print_unsigned_int`. -/
def uart_print_unsigned_int (num : Nat) : List Char :=
  if num = 0 then ['0'] else decDigits num

/-- `uart_print_hex`: `'0'` for zero; for positive input the hex digits; for
negative input the `while (num > 0)` loop collects no digits, so *nothing* is
printed. -/
def uart_print_hex (num : Int) (uppercase : Bool) : List Char :=
  if num = 0 then ['0']
  else if 0 < num then hexDigits uppercase num.toNat
  else []

/-- `uart_print_long_long_int`. -/
def uart_print_long_long_int (num : Int) : List Char :=
  if num = 0 then ['0']
  else (if num < 0 then ['-'] else []) ++ decDigits num.natAbs

/-- `uart_print_unsigned_long_long_int`. -/
def uart_print_unsigned_long_long_int (num : Nat) : List Char :=
  if num = 0 then ['0'] else decDigits num

/-- `uart_print_long_long_hex` (same shape as `uart_print_hex`). -/
def uart_print_long_long_hex (num : Int) (uppercase : Bool) : List Char :=
  if num = 0 then ['0']
  else if 0 < num then hexDigits uppercase num.toNat
  else []

/-- `uart_send_string` (`mini_uart.c`): each `'\n'` is preceded by `'\r'`. -/
def uart_send_string : List Char → List Char
  | [] => []
  | c :: cs => (if c = '\n' then ['\r', c] else [c]) ++ uart_send_string cs

/-- The format-string interpreter loop of `uart_printf`.  Each case transcribes
one `switch` arm; after the arm, the source checks whether the character the
format pointer rests on is `'\n'` and, if so, appends `'\r'` (for a literal
`'\n'` the newline itself is sent first).  The `%l` arm advances one character
and recognizes only the single-`l` forms `%ld`/`%li`/`%lu`/`%lx`/`%lX`;
anything else after `%l` emits nothing and consumes no argument. -/
def uart_printf_go : List Char → List VaSlot → List Char
  | [], _ => []
  | '%' :: 'c' :: rest, args =>
    [Char.ofNat (va_uint (args.headD (.word 0)) % 256)] ++ uart_printf_go rest args.tail
  | '%' :: 'd' :: rest, args =>
    uart_print_int (va_int (args.headD (.word 0))) ++ uart_printf_go rest args.tail
  | '%' :: 'i' :: rest, args =>
    uart_print_int (va_int (args.headD (.word 0))) ++ uart_printf_go rest args.tail
  | '%' :: 'u' :: rest, args =>
    uart_print_unsigned_int (va_uint (args.headD (.word 0))) ++ uart_printf_go rest args.tail
  | '%' :: 's' :: rest, args =>
    uart_send_string (va_string (args.headD (.word 0))).toList ++ uart_printf_go rest args.tail
  | '%' :: 'x' :: rest, args =>
    uart_print_hex (va_int (args.headD (.word 0))) false ++ uart_printf_go rest args.tail
  | '%' :: 'X' :: rest, args =>
    uart_print_hex (va_int (args.headD (.word 0))) true ++ uart_printf_go rest args.tail
  | '%' :: 'l' :: c2 :: rest, args =>
    if c2 = 'd' ∨ c2 = 'i' then
      uart_print_long_long_int (va_longlong (args.headD (.word 0))) ++ uart_printf_go rest args.tail
    else if c2 = 'u' then
      uart_print_unsigned_long_long_int (va_ulonglong (args.headD (.word 0))) ++ uart_printf_go rest args.tail
    else if c2 = 'x' then
      uart_print_long_long_hex (va_longlong (args.headD (.word 0))) false ++ uart_printf_go rest args.tail
    else if c2 = 'X' then
      uart_print_long_long_hex (va_longlong (args.headD (.word 0))) true ++ uart_printf_go rest args.tail
    else
      (if c2 = '\n' then ['\r'] else []) ++ uart_printf_go rest args
  | ['%', 'l'], _ => []   -- format ends right after "%l": the loop runs off the terminator
  | ['%'], _ => ['%']     -- format ends in '%': the default arm sends '%' and the terminator
  | '%' :: c :: rest, args =>
    ['%', c] ++ (if c = '\n' then ['\r'] else []) ++ uart_printf_go rest args
  | c :: rest, args =>
    (if c = '\n' then [c, '\r'] else [c]) ++ uart_printf_go rest args

/-- `uart_printf(format, ...)`: run the interpreter on the format string. -/
def uart_printf (format : String) (args : List VaSlot) : List Char :=
  uart_printf_go format.toList args

/-- `show_invalid_entry_message(type, esr, address)` (`irq.c`): the UART
output of
`uart_printf("ERROR CAUGHT: %s - %d, ESR: %X, Address: %X\n", entry_error_message[type], type, esr, address)`. -/
def show_invalid_entry_message (ty esr addr : Nat) : List Char :=
  uart_printf "ERROR CAUGHT: %s - %d, ESR: %X, Address: %X\n"
    [VaSlot.strp (entry_error_message.getD ty ""), VaSlot.word ty,
     VaSlot.word esr, VaSlot.word addr]

/-! ### C9: the diagnostic line loses the upper half of the 64-bit values

`%X` fetches a 32-bit `int` from the variadic slot, so only the low 32 bits of
the syndrome/address are considered — and `uart_print_hex` prints *nothing*
when those low 32 bits are negative as an `int`.  The full 64-bit values are
therefore not always contained in the line. -/

/-- **C9 (code bug).** At the failing input `type = 0, esr = 2^32, address = 0`
the emitted diagnostic is identical to the one for `esr = 0`: the syndrome
value `2^32` is truncated by the `%X` → `va_arg(int)` fetch, so the line does
not contain the full syndrome register value, contradicting the claim (and the
evident intent — `uart_printf` documents `%llX` for 64-bit values). -/
theorem show_invalid_entry_message_truncates :
    show_invalid_entry_message 0 (2 ^ 32) 0 = show_invalid_entry_message 0 0 0 ∧
    (2 ^ 32 : Nat) ≠ 0 :=
  ⟨by decide, by decide⟩

end RpiBm
